import Mathlib

/-!
Verification of the zoning-mcp-server protocol adapter and citation
extractor (src/server.js) against its natural-language specification.

The JavaScript source is shallowly embedded below.  Strings are Lean
`String`s; character-level operations go through `String.data`
(`List Char`).  JavaScript regular-expression matching (leftmost match,
greedy quantifiers with backtracking) is modelled explicitly for the two
regexes of `extractFilename`.  Stateful code (the persisted vector-store
file, outbound HTTP calls) is modelled by explicit state passing: a
`World` record carries the persisted file plus a counter of external
creation calls, and outbound search requests are recorded as the list of
payloads sent, so that claims about "zero outbound calls" or "exactly
two attempts" are statable.
-/

namespace ZoningMcp

/-! ### JavaScript string primitives -/

/-- Character class of the JavaScript `\s` regex escape and of
`String.prototype.trim`: space, tab, line terminators, vertical tab,
form feed, and the Unicode space separators. -/
def isJsWS (c : Char) : Bool :=
  c = ' ' || c = '\t' || c = '\n' || c = '\r' ||
  c = '\x0b' || c = '\x0c' || c = ' ' || c = ' ' ||
  (0x2000 ≤ c.toNat && c.toNat ≤ 0x200a) ||
  c = ' ' || c = ' ' || c = ' ' || c = ' ' ||
  c = '　' || c = '﻿'

/-- JavaScript line terminators, the characters not matched by `.` in a
regex without the dotAll flag. -/
def isLineTerm (c : Char) : Bool :=
  c = '\n' || c = '\r' || c = ' ' || c = ' '

/-- `String.prototype.trim` on a character list. -/
def jsTrimList (cs : List Char) : List Char :=
  ((cs.dropWhile isJsWS).reverse.dropWhile isJsWS).reverse

/-- `String.prototype.trim`. -/
def jsTrim (s : String) : String := String.mk (jsTrimList s.data)

/-- Whether `pat` is a prefix of `cs` (character-exact, as in
`String.prototype.startsWith`). -/
def startsWithList : List Char → List Char → Bool
  | _, [] => true
  | [], _ :: _ => false
  | a :: as, b :: bs => a = b && startsWithList as bs

/-- Whether `pat` occurs in `cs` (character-exact, as in
`String.prototype.includes`). -/
def hasSubstrList (cs pat : List Char) : Bool :=
  match cs with
  | [] => pat.isEmpty
  | _ :: rest => startsWithList cs pat || hasSubstrList rest pat

/-- `String.prototype.includes sub` on `s`. -/
def hasSubstr (s sub : String) : Bool := hasSubstrList s.data sub.data

/-- Case-insensitive prefix test; the pattern is given in lower case
(models the `i` flag on an alternation of plain letters). -/
def ciStartsWithList : List Char → List Char → Bool
  | _, [] => true
  | [], _ :: _ => false
  | a :: as, b :: bs => a.toLower = b && ciStartsWithList as bs

/-! ### The two regexes of `extractFilename` (server.js lines 547-556)

`text.match(/([^\/\\]+\.pdf)/i)`: JavaScript finds the leftmost start
position admitting a match; there the greedy `[^\/\\]+` backtracks from
its maximal extent, so the match ends at the last `.pdf` occurrence
reachable from the start without crossing a slash or backslash. -/

/-- Whether `.pdf` (case-insensitively) stands at position `j` of `cs`. -/
def isPdfAt (cs : List Char) (j : Nat) : Bool :=
  match cs.drop j with
  | '.' :: p :: d :: f :: _ => p.toLower = 'p' && d.toLower = 'd' && f.toLower = 'f'
  | _ => false

/-- No `/` or `\` among the characters of `cs` in positions `[s, j)`. -/
def noSlashBetween (cs : List Char) (s j : Nat) : Bool :=
  ((cs.drop s).take (j - s)).all (fun c => !(c = '/' || c = '\\'))

/-- All positions where a match of `[^\/\\]+\.pdf` starting at `s` could
place its `.pdf` tail: at least one consumed character before it, all of
them slash-free. -/
def pdfEndsFrom (cs : List Char) (s : Nat) : List Nat :=
  (List.range cs.length).filter
    (fun j => decide (s + 1 ≤ j) && isPdfAt cs j && noSlashBetween cs s j)

/-- The match of `[^\/\\]+\.pdf` anchored at start position `s`: the
greedy quantifier selects the last admissible `.pdf` tail. -/
def pdfMatchAt (cs : List Char) (s : Nat) : Option (List Char) :=
  match (pdfEndsFrom cs s).getLast? with
  | some j => some ((cs.drop s).take (j + 4 - s))
  | none => none

/-- The leftmost match of `/([^\/\\]+\.pdf)/i` in `cs` (group 1 equals
the whole match). -/
def pdfMatch (cs : List Char) : Option (List Char) :=
  (List.range cs.length).findSome? (fun s => pdfMatchAt cs s)

/-- `text.match(/(?:Source|Document):\s*(.+)/i)`: length of the label
alternation when it matches at the head of `cs`. -/
def labelLenAt (cs : List Char) : Option Nat :=
  if ciStartsWithList cs "source:".data then some 7
  else if ciStartsWithList cs "document:".data then some 9
  else none

/-- Match of `\s*(.+)` at the head of `rest`, returning group 1: the
greedy `\s*` backtracks from its maximal extent until `.+` can consume
at least one non-line-terminator character, which then extends greedily
to the next line terminator or the end. -/
def wsDotPlus (rest : List Char) : Option (List Char) :=
  ((List.range ((rest.takeWhile isJsWS).length + 1)).reverse).findSome?
    (fun k =>
      match rest.drop k with
      | [] => none
      | c :: _ =>
        if isLineTerm c then none
        else some ((rest.drop k).takeWhile (fun d => !isLineTerm d)))

/-- Group 1 of the leftmost full match of `/(?:Source|Document):\s*(.+)/i`. -/
def sourceMatch (cs : List Char) : Option (List Char) :=
  (List.range (cs.length + 1)).findSome?
    (fun s =>
      match labelLenAt (cs.drop s) with
      | some l => wsDotPlus (cs.drop (s + l))
      | none => none)

/-- server.js lines 547-556: first regex wins; group 1 of the second is
trimmed; otherwise the fixed placeholder. -/
def extractFilename (text : String) : String :=
  match pdfMatch text.data with
  | some m => String.mk m
  | none =>
    match sourceMatch text.data with
    | some g => jsTrim (String.mk g)
    | none => "Unknown Document"

/-! ### The citation record and the line scan (server.js lines 494-545)

`parseSearchResults` splits the raw output on newlines, drops
whitespace-only lines, and folds the remaining lines over a current
citation record.  Before the first filename-bearing line the JavaScript
code mutates an initial record that has no `filename` member; since the
only flushes are guarded by the truthiness of `filename`, that initial
record can never reach the output, so it is modelled as `none`. -/

/-- One citation record: the object literal of server.js line 508, with
`filename`, `section` and `snippet` members (strings, initialised to the
extracted filename and two empty strings). -/
structure Citation where
  filename : String
  «section» : String
  snippet : String
deriving DecidableEq, Repr

/-- State of the line scan: the current record (none before the first
filename-bearing line) and the citations flushed so far, in order. -/
structure ScanState where
  current : Option Citation
  acc : List Citation
deriving DecidableEq, Repr

/-- Flush the current record: `if (currentCitation.filename)
citations.push(currentCitation)` — only a record whose filename is a
non-empty string is appended. -/
def flushCurrent (st : ScanState) : List Citation :=
  match st.current with
  | some c => if c.filename ≠ "" then st.acc ++ [c] else st.acc
  | none => st.acc

/-- The body of the `for (const line of lines)` loop of
`parseSearchResults`.  The three branches, in source order: a line
containing `.pdf`, `Document:` or `Source:` flushes the current record
and starts a new one; otherwise a line containing `Section`, `Article`
or `Chapter` overwrites the section; otherwise a line free of the
citation-marker brackets is appended to the snippet, space-joined.  The
tests are case-sensitive `includes`; assignments use the trimmed line. -/
def scanLine (st : ScanState) (line : String) : ScanState :=
  if hasSubstr line ".pdf" || hasSubstr line "Document:" || hasSubstr line "Source:" then
    { current := some { filename := extractFilename line, «section» := "", snippet := "" },
      acc := flushCurrent st }
  else if hasSubstr line "Section" || hasSubstr line "Article" || hasSubstr line "Chapter" then
    (match st.current with
     | some c => { st with current := some { c with «section» := jsTrim line } }
     | none => st)
  else if !(hasSubstr line "【") && !(hasSubstr line "】") then
    (match st.current with
     | some c =>
       { st with current := some { c with snippet :=
           (if c.snippet = "" then jsTrim line else c.snippet ++ " " ++ jsTrim line) } }
     | none => st)
  else st

/-- Split a character list at every newline, keeping empty segments,
exactly as `split('\n')` does. -/
def splitOnNl (cs : List Char) : List (List Char) :=
  cs.foldr
    (fun c acc =>
      match acc with
      | [] => if c = '\n' then [[], []] else [[c]]
      | cur :: rest => if c = '\n' then [] :: cur :: rest else (c :: cur) :: rest)
    [[]]

/-- `rawOutput.split('\n').filter(line => line.trim())`. -/
def jsLines (s : String) : List String :=
  ((splitOnNl s.data).map String.mk).filter (fun l => jsTrim l ≠ "")

/-- The full line scan: fold the loop body over the kept lines and flush
the last open record. -/
def scanCitations (s : String) : List Citation :=
  flushCurrent ((jsLines s).foldl scanLine { current := none, acc := [] })

/-- The two observably distinct return forms of `parseSearchResults`:
either the JSON-stringified `{results, total_found, query_processed}`
object built from a non-empty citation list, or the raw input passed
through unchanged. -/
inductive ParseResult where
  | structured (citations : List Citation)
  | raw (text : String)
deriving DecidableEq, Repr

/-- server.js lines 494-545: run the line scan; if it produced at least
one citation return the structured form, otherwise fall back to the raw
output.  The `try`/`catch` around the body can only ever return the raw
output as well, so the function is total. -/
def parseSearchResults (rawOutput : String) : ParseResult :=
  let cs := scanCitations rawOutput
  if cs ≠ [] then ParseResult.structured cs else ParseResult.raw rawOutput

/-! ### Output-text extraction (server.js lines 160-184)

`extractOutputText` reads at most two members of the upstream response
body: a string `output_text` and an array `output` of items whose
`content` arrays carry text parts.  `Option` models an absent member or
one of the wrong runtime type. -/

/-- One element of an item content array; `text` is kept when it is a
string member. -/
structure ContentPart where
  text : Option String
deriving DecidableEq, Repr

/-- One element of the `output` array; `content` is kept when it is an
array member of a non-null item. -/
structure OutputItem where
  content : Option (List ContentPart)
deriving DecidableEq, Repr

/-- The parsed JSON body of a successful responses-API call, restricted
to the two members `extractOutputText` inspects. -/
structure ResponseBody where
  output_text : Option String
  output : Option (List OutputItem)
deriving DecidableEq, Repr

/-- Collect `part.text` over all parts of all items, in order. -/
def outputTextChunks (items : List OutputItem) : List String :=
  items.foldr
    (fun it acc =>
      match it.content with
      | some parts =>
        parts.foldr
          (fun p acc2 =>
            match p.text with
            | some t => t :: acc2
            | none => acc2) acc
      | none => acc) []

/-- server.js lines 160-184: prefer a non-blank `output_text` (returned
untrimmed); otherwise join the text chunks of the `output` array with
newlines and trim; otherwise the empty string. -/
def extractOutputText (b : ResponseBody) : String :=
  match b.output_text with
  | some t =>
    if jsTrim t ≠ "" then t
    else
      (match b.output with
       | some items => jsTrim (String.intercalate "\n" (outputTextChunks items))
       | none => "")
  | none =>
    (match b.output with
     | some items => jsTrim (String.intercalate "\n" (outputTextChunks items))
     | none => "")

/-! ### Outbound search client with payload-shape fallback
(server.js lines 354-437)

The payload sent to the responses API.  Shape A carries the vector
store id under `tool_resources.file_search.vector_store_ids`; shape B
embeds `vector_store_ids` in the `file_search` tool declaration.  The
upstream service is a function from the payload sent to the outcome of
that HTTP call; the client returns its result together with the list of
payloads it sent, in order. -/

/-- The request body of server.js lines 354-363 (shape A) and 399-406
(shape B).  All payloads use the single `file_search` tool. -/
structure SearchPayload where
  model : String
  input : String
  toolType : String
  toolVectorStoreIds : Option (List String)
  toolResourcesVectorStoreIds : Option (List String)
deriving DecidableEq, Repr

/-- The natural-language instruction of server.js lines 356 and 401,
embedding only the query. -/
def searchInstruction (query : String) : String :=
  "Search the zoning documents for: " ++ query ++
    ". Provide specific citations with document names, section references, and relevant text snippets."

/-- Payload shape A (server.js lines 354-363). -/
def payloadA (query storeId : String) : SearchPayload :=
  { model := "gpt-4o-mini", input := searchInstruction query, toolType := "file_search",
    toolVectorStoreIds := none, toolResourcesVectorStoreIds := some [storeId] }

/-- Payload shape B (server.js lines 399-406). -/
def payloadB (query storeId : String) : SearchPayload :=
  { model := "gpt-4o-mini", input := searchInstruction query, toolType := "file_search",
    toolVectorStoreIds := some [storeId], toolResourcesVectorStoreIds := none }

/-- Outcome of one outbound HTTP call: a parsed JSON body when
`response.ok`, otherwise the numeric status and the error body text. -/
inductive FetchResult where
  | ok (body : ResponseBody)
  | fail (status : Nat) (text : String)
deriving DecidableEq, Repr

/-- The literal substring tested by server.js line 394 to decide whether
to retry under shape B. -/
def unknownParamText : String := "Unknown parameter: 'attachments'"

/-- server.js lines 370-439: send shape A; on success parse its output
text.  On failure, retry once with shape B exactly when the error text
contains `unknownParamText`: a successful retry parses the output text
of shape B, a failed retry throws carrying only the retry status, and a
first failure without the substring throws carrying the first status
and error text.  The second component lists the payloads sent. -/
def toolsCallSearch (query storeId : String) (upstream : SearchPayload → FetchResult) :
    Except String ParseResult × List SearchPayload :=
  match upstream (payloadA query storeId) with
  | FetchResult.ok body =>
    (Except.ok (parseSearchResults (extractOutputText body)), [payloadA query storeId])
  | FetchResult.fail status text =>
    if hasSubstr text unknownParamText then
      (match upstream (payloadB query storeId) with
       | FetchResult.ok body =>
         (Except.ok (parseSearchResults (extractOutputText body)),
          [payloadA query storeId, payloadB query storeId])
       | FetchResult.fail status2 _ =>
         (Except.error ("Fallback request failed: " ++ toString status2),
          [payloadA query storeId, payloadB query storeId]))
    else
      (Except.error ("OpenAI API error: " ++ toString status ++ " - " ++ text),
       [payloadA query storeId])

/-! ### The store handle cache (server.js lines 66-131)

The persisted file `.vector-store.json` is modelled as one of: absent;
unreadable (reading or JSON-parsing throws, which `loadVectorStore`
catches, returning null); parsed to a falsy JSON value (null, false, 0
or the empty string, which the `if (!vectorStore)` test treats like an
absent handle); or a stored handle record.  The handle keeps the two
claim-relevant members of the vector-store object, `id` and `name`.
`World` additionally counts the external creation calls issued, so that
"zero creation calls" is statable.  A successful creation persists the
returned handle before returning it; `saveVectorStore` swallows write
errors, so persisting is modelled as always succeeding. -/

/-- The claim-relevant members of the external vector-store object. -/
structure VectorStore where
  id : String
  name : String
deriving DecidableEq, Repr

/-- The state of the persisted `.vector-store.json` file. -/
inductive Persisted where
  | absent
  | unreadable
  | falsy
  | stored (vs : VectorStore)
deriving DecidableEq, Repr

/-- The file state plus the count of external creation calls issued. -/
structure World where
  file : Persisted
  createCalls : Nat
deriving DecidableEq, Repr

/-- What the external vector-store creation endpoint would answer. -/
inductive CreateOutcome where
  | ok (vs : VectorStore)
  | httpFail (status : Nat)
deriving DecidableEq, Repr

/-- server.js lines 68-78: a stored handle is returned; everything else
loads as null. -/
def loadVectorStore : Persisted → Option VectorStore
  | Persisted.stored vs => some vs
  | _ => none

/-- server.js lines 88-117: call the creation endpoint; on success
persist and return the handle, on a non-ok response throw
`HTTP error! status: ...`.  Either way one creation call was issued. -/
def createVectorStore (co : CreateOutcome) (w : World) :
    Except String VectorStore × World :=
  match co with
  | CreateOutcome.ok vs =>
    (Except.ok vs, { file := Persisted.stored vs, createCalls := w.createCalls + 1 })
  | CreateOutcome.httpFail status =>
    (Except.error ("HTTP error! status: " ++ toString status),
     { file := w.file, createCalls := w.createCalls + 1 })

/-- server.js lines 119-131: return the loaded handle when the file
yields a truthy value, otherwise create (and persist) a new one. -/
def getOrCreateVectorStore (co : CreateOutcome) (w : World) :
    Except String VectorStore × World :=
  match loadVectorStore w.file with
  | some vs => (Except.ok vs, w)
  | none => createVectorStore co w

/-! ### The MCP method dispatcher (server.js lines 259-464)

The request body is destructured into `jsonrpc`, `method`, `params`
(defaulting to an empty object) and `id` (defaulting to null).  `params`
contributes only `name` and `arguments` (used by `tools/call`), and
`arguments` only its `query` member plus two members the code never
reads, kept here so that their irrelevance is statable.  Responses carry
the request id (null when absent) and either a result or an error with a
numeric code and a message. -/

/-- A JSON-RPC request id: a number or a string (null is `none` at the
use site). -/
inductive RpcId where
  | num (n : Int)
  | str (s : String)
deriving DecidableEq, Repr

/-- A primitive JSON value, enough to express the runtime-type test
`typeof query !== 'string'`. -/
inductive JsonPrim where
  | str (s : String)
  | num (n : Int)
  | bool (b : Bool)
  | null
deriving DecidableEq, Repr

/-- `params.arguments`: the `query` member the code reads, plus `topK`
and `jurisdiction`, members an inbound request may carry but that
server.js never reads. -/
structure Args where
  query : Option JsonPrim
  topK : Option Int
  jurisdiction : Option String
deriving DecidableEq, Repr

/-- The destructured request body of server.js line 261. -/
structure McpRequest where
  jsonrpc : Option String
  method : Option String
  paramsName : Option String
  paramsArgs : Args
  id : Option RpcId
deriving DecidableEq, Repr

/-- The result payloads of the dispatcher, one constructor per method
branch; the static payloads are elided except for the tool descriptor
data of `tools/list` that the claims mention. -/
inductive RpcResultVal where
  | initResult
  | serverInfoResult
  | pingOk
  | toolsList (toolName : String) (schemaProperties schemaRequired : List String)
  | content (text : ParseResult)
deriving DecidableEq, Repr

/-- A JSON-RPC-shaped response: result or error, both echoing the
request id (`none` rendered as null, server.js lines 138-158). -/
inductive RpcOut where
  | result (id : Option RpcId) (val : RpcResultVal)
  | error (id : Option RpcId) (code : Int) (message : String)
deriving DecidableEq, Repr

/-- The single tool name of server.js line 311. -/
def searchToolName : String := "search_zoning"

/-- The property names of the `tools/list` input schema (server.js
lines 314-321): only `query`. -/
def inputSchemaPropertyNames : List String := ["query"]

/-- The `required` list of the input schema (server.js line 321). -/
def inputSchemaRequired : List String := ["query"]

/-- `if (jsonrpc && jsonrpc !== JSONRPC_VERSION)` (server.js line 271):
absent or empty-string values are falsy and skip the check. -/
def badJsonrpc : Option String → Bool
  | none => false
  | some v => !(v = "") && !(v = "2.0")

/-- `if (!method)` (server.js line 275): absent or empty string. -/
def methodMissing : Option String → Bool
  | none => true
  | some m => m = ""

/-- Template interpolation of a possibly-undefined value
(`Unknown tool: ${name}`). -/
def nameOrUndefined : Option String → String
  | some s => s
  | none => "undefined"

/-- The method string in the reachable unknown-method branch. -/
def methodOrEmpty : Option String → String
  | some m => m
  | none => ""

/-- `const query = args.query; if (!query || typeof query !== 'string')`
(server.js lines 340-344): only a non-empty string survives. -/
def validateQuery (args : Args) : Option String :=
  match args.query with
  | some (JsonPrim.str q) => if q = "" then none else some q
  | _ => none

/-- The server environment: whether `OPENAI_API_KEY` is configured, and
the behaviors of the two external endpoints. -/
structure Env where
  apiKeyPresent : Bool
  createApi : CreateOutcome
  upstream : SearchPayload → FetchResult

/-- server.js lines 259-464: the `/mcp` dispatcher.  Version and
missing-method checks come first; then the fixed method table;
`tools/call` checks the API key, the tool name and the query before any
outbound work, then provisions the store handle and runs the search
client with fallback; any thrown error is converted by the outer catch
into a `-32000` error carrying the message.  The third component lists
the outbound search payloads sent while handling the request. -/
def handleMcp (env : Env) (w : World) (req : McpRequest) :
    RpcOut × World × List SearchPayload :=
  if badJsonrpc req.jsonrpc then
    (RpcOut.error req.id (-32600) "Invalid JSON-RPC version", w, [])
  else if methodMissing req.method then
    (RpcOut.error req.id (-32600) "Invalid request: missing method", w, [])
  else if req.method = some "initialize" then
    (RpcOut.result req.id RpcResultVal.initResult, w, [])
  else if req.method = some "server/info" then
    (RpcOut.result req.id RpcResultVal.serverInfoResult, w, [])
  else if req.method = some "ping" then
    (RpcOut.result req.id RpcResultVal.pingOk, w, [])
  else if req.method = some "tools/list" then
    (RpcOut.result req.id
      (RpcResultVal.toolsList searchToolName inputSchemaPropertyNames inputSchemaRequired),
     w, [])
  else if req.method = some "tools/call" then
    if !env.apiKeyPresent then
      (RpcOut.error req.id (-32001) "OPENAI_API_KEY is not configured", w, [])
    else if !(req.paramsName = some searchToolName) then
      (RpcOut.error req.id (-32601) ("Unknown tool: " ++ nameOrUndefined req.paramsName), w, [])
    else
      (match validateQuery req.paramsArgs with
       | none => (RpcOut.error req.id (-32602) "Missing required argument: query", w, [])
       | some q =>
         (match getOrCreateVectorStore env.createApi w with
          | (Except.error msg, w2) => (RpcOut.error req.id (-32000) msg, w2, [])
          | (Except.ok vs, w2) =>
            (match toolsCallSearch q vs.id env.upstream with
             | (Except.ok pr, sent) => (RpcOut.result req.id (RpcResultVal.content pr), w2, sent)
             | (Except.error msg, sent) => (RpcOut.error req.id (-32000) msg, w2, sent))))
  else
    (RpcOut.error req.id (-32601) ("Unknown method: " ++ methodOrEmpty req.method), w, [])

/-! ### Helper lemmas: every flushed citation has a non-empty filename -/

/-- Flushing preserves the accumulator invariant: the only push is
guarded by the truthiness of `filename`. -/
theorem flushCurrent_filename_ne (st : ScanState)
    (h : ∀ c ∈ st.acc, c.filename ≠ "") :
    ∀ c ∈ flushCurrent st, c.filename ≠ "" := by
  unfold flushCurrent
  cases st.current with
  | none => exact h
  | some c0 =>
    show ∀ c ∈ (if c0.filename ≠ "" then st.acc ++ [c0] else st.acc), c.filename ≠ ""
    by_cases hf : c0.filename ≠ ""
    · rw [if_pos hf]
      intro c hc
      rcases List.mem_append.mp hc with h1 | h1
      · exact h c h1
      · rw [List.mem_singleton.mp h1]
        exact hf
    · rw [if_neg hf]
      exact h

/-- One loop step either keeps the accumulator or flushes into it. -/
theorem scanLine_acc_eq (st : ScanState) (line : String) :
    (scanLine st line).acc = st.acc ∨ (scanLine st line).acc = flushCurrent st := by
  unfold scanLine
  split
  · right; rfl
  · split
    · cases st.current <;> simp
    · split
      · cases st.current <;> simp
      · left; rfl

/-- One loop step preserves the accumulator invariant. -/
theorem scanLine_filename_ne (st : ScanState) (line : String)
    (h : ∀ c ∈ st.acc, c.filename ≠ "") :
    ∀ c ∈ (scanLine st line).acc, c.filename ≠ "" := by
  rcases scanLine_acc_eq st line with he | he <;> rw [he]
  · exact h
  · exact flushCurrent_filename_ne st h

/-- The whole fold preserves the accumulator invariant. -/
theorem foldl_scanLine_filename_ne (lines : List String) (st : ScanState)
    (h : ∀ c ∈ st.acc, c.filename ≠ "") :
    ∀ c ∈ (lines.foldl scanLine st).acc, c.filename ≠ "" := by
  induction lines generalizing st with
  | nil => exact h
  | cons l ls ih => exact ih (scanLine st l) (scanLine_filename_ne st l h)

/-- Every citation produced by the line scan has a non-empty filename. -/
theorem mem_scanCitations_filename_ne (s : String) (c : Citation)
    (hc : c ∈ scanCitations s) : c.filename ≠ "" := by
  unfold scanCitations at hc
  refine flushCurrent_filename_ne _ ?_ c hc
  exact foldl_scanLine_filename_ne (jsLines s) { current := none, acc := [] }
    (by intro c hc; cases hc)

/-! ### Claim C1: the fenced-JSON heuristic does not exist -/

/-- The example input of spec property P3: a fenced code block tagged as
JSON holding one citation-like object. -/
def fencedJsonInput : String :=
  "```json\n[\x7b\"file\":\"a.pdf\",\"page\":\"3\",\"text\":\"setback 10ft\"\x7d]\n```"

/-- C1, counterexample: on the fenced-JSON example input the extractor
does not return the field-aliased objects of the array — no JSON heuristic
runs, so the claimed output (one citation a.pdf / 3 / setback 10ft) is not
produced. -/
theorem parseSearchResults_fencedJson_not_aliased :
    parseSearchResults fencedJsonInput ≠
      ParseResult.structured
        [{ filename := "a.pdf", «section» := "3", snippet := "setback 10ft" }] := by
  decide

/-- C1, amended: `parseSearchResults` has only the line-scan heuristic,
so the fenced-JSON example is consumed line by line: the array line
contains `.pdf` and starts a citation whose filename is the greedy pdf
regex match over the raw line (JSON punctuation included), whose section
stays empty and whose snippet is the closing fence line; no JSON is
parsed and no field alias is applied. -/
theorem parseSearchResults_fencedJson_lineScan :
    parseSearchResults fencedJsonInput =
      ParseResult.structured
        [{ filename := "[\x7b\"file\":\"a.pdf", «section» := "", snippet := "```" }] := by
  decide

/-! ### Claim C3: the line-scan example keeps the Source label in the filename -/

/-- The example input of spec property P4. -/
def lineScanInput : String :=
  "Source: zoning.pdf\nSection 4.2 Setbacks\nMinimum setback is 10 feet."

/-- C3, counterexample: the P4 example does not yield the claimed
citation with filename `zoning.pdf` — the pdf regex of
`extractFilename` excludes only slashes from its character class, so the
greedy match swallows the `Source: ` label. -/
theorem parseSearchResults_label_swallowed_by_filename :
    parseSearchResults lineScanInput ≠
      ParseResult.structured
        [{ filename := "zoning.pdf", «section» := "Section 4.2 Setbacks",
           snippet := "Minimum setback is 10 feet." }] := by
  decide

/-- C3, amended: the P4 example yields exactly one citation whose
section and snippet are as claimed but whose filename is the whole line
`Source: zoning.pdf`. -/
theorem parseSearchResults_lineScan_example :
    parseSearchResults lineScanInput =
      ParseResult.structured
        [{ filename := "Source: zoning.pdf", «section» := "Section 4.2 Setbacks",
           snippet := "Minimum setback is 10 feet." }] := by
  decide

/-! ### Claim C4: the retention filter checks only the filename -/

/-- Follows the words of the spec (section 3, Citation invariant), for
comparison with the code: a citation is retained only if it has a
filename and at least one of section and snippet (an empty string
standing for an absent value). -/
def specCitationInvariant (c : Citation) : Bool :=
  (!(c.filename = "")) && (!(c.«section» = "") || !(c.snippet = ""))

/-- C4, counterexample: the input `a.pdf` produces a result that retains
a citation with empty section and empty snippet, which the claimed
invariant says must be dropped — the code filters only on a non-empty
filename. -/
theorem parseSearchResults_retains_invariant_violating_citation :
    parseSearchResults "a.pdf" =
      ParseResult.structured [{ filename := "a.pdf", «section» := "", snippet := "" }] ∧
    specCitationInvariant { filename := "a.pdf", «section» := "", snippet := "" } = false := by
  constructor
  · decide
  · decide

/-- C4, amended: every citation contained in a structured result has a
non-empty filename; no filtering on section or snippet is performed
(the counterexample shows a retained citation with both empty). -/
theorem parseSearchResults_retained_filename_nonempty (s : String) (cs : List Citation)
    (c : Citation) (hres : parseSearchResults s = ParseResult.structured cs) (hc : c ∈ cs) :
    c.filename ≠ "" := by
  unfold parseSearchResults at hres
  by_cases h : scanCitations s ≠ []
  · rw [if_pos h] at hres
    injection hres with hcs
    exact mem_scanCitations_filename_ne s c (hcs ▸ hc)
  · rw [if_neg h] at hres
    cases hres

/-- C4, witness for the amended theorem at a concrete input. -/
theorem parseSearchResults_retained_filename_nonempty_witness :
    (Citation.mk "plan.pdf" "" "").filename ≠ "" :=
  parseSearchResults_retained_filename_nonempty "plan.pdf"
    [Citation.mk "plan.pdf" "" ""] (Citation.mk "plan.pdf" "" "")
    (by decide) (by decide)

/-! ### Claim C5: with no citations the raw text is passed through -/

/-- C5, counterexample: the P5 example input yields the raw input text
passed through unchanged, not an empty citation sequence. -/
theorem parseSearchResults_no_citation_raw_passthrough :
    parseSearchResults "no useful information found" =
      ParseResult.raw "no useful information found" ∧
    parseSearchResults "no useful information found" ≠ ParseResult.structured [] := by
  constructor
  · decide
  · decide

/-- C5, amended: the extractor is a total function that never returns an
error value: when the line scan produces no citation the raw input is
returned unchanged, and otherwise the result is a non-empty structured
citation list. -/
theorem parseSearchResults_total_raw_fallback (s : String) :
    (scanCitations s = [] → parseSearchResults s = ParseResult.raw s) ∧
    ((∃ cs, cs ≠ [] ∧ parseSearchResults s = ParseResult.structured cs) ∨
      parseSearchResults s = ParseResult.raw s) := by
  unfold parseSearchResults
  by_cases h : scanCitations s ≠ []
  · rw [if_pos h]
    exact ⟨fun he => absurd he h, Or.inl ⟨scanCitations s, h, rfl⟩⟩
  · rw [if_neg h]
    exact ⟨fun _ => rfl, Or.inr rfl⟩

/-- C5, witness for the amended theorem at a concrete input. -/
theorem parseSearchResults_total_raw_fallback_witness :
    parseSearchResults "nothing here" = ParseResult.raw "nothing here" :=
  (parseSearchResults_total_raw_fallback "nothing here").1 (by decide)

/-! ### Claim C10: totality of `extractFilename` and scan filenames -/

/-- C10, counterexample: a `Source:` label followed only by spaces makes
the second regex capture a space, which trims to the empty string — so
`extractFilename` does return the empty string on some lines. -/
theorem extractFilename_empty_on_whitespace_label :
    extractFilename "Source:   " = "" := by
  decide

/-- C10, amended: `extractFilename` is total with the three-way
priority of the source — the pdf-regex match, else the trimmed value
following a `Source:`/`Document:` label (an empty string when only
whitespace follows the label), else the placeholder — and every
citation record emitted by the line scan nevertheless has a non-empty
filename, because a record with an empty filename is never flushed. -/
theorem extractFilename_total_scan_filenames_nonempty :
    (∀ t m, pdfMatch t.data = some m → extractFilename t = String.mk m) ∧
    (∀ t g, pdfMatch t.data = none → sourceMatch t.data = some g →
      extractFilename t = jsTrim (String.mk g)) ∧
    (∀ t, pdfMatch t.data = none → sourceMatch t.data = none →
      extractFilename t = "Unknown Document") ∧
    (∀ s c, c ∈ scanCitations s → c.filename ≠ "") := by
  refine ⟨?_, ?_, ?_, ?_⟩
  · intro t m hp
    unfold extractFilename
    rw [hp]
  · intro t g hp hs
    unfold extractFilename
    rw [hp, hs]
  · intro t hp hs
    unfold extractFilename
    rw [hp, hs]
  · intro s c hc
    exact mem_scanCitations_filename_ne s c hc

/-- C10, witness for the amended theorem at concrete inputs: each
branch of the priority evaluated, and the non-empty filename of a
scanned record. -/
theorem extractFilename_total_scan_filenames_nonempty_witness :
    extractFilename "map.pdf" = String.mk "map.pdf".data ∧
    extractFilename "Document: plan A" = jsTrim (String.mk "plan A".data) ∧
    extractFilename "no label here" = "Unknown Document" ∧
    (Citation.mk "b.pdf" "" "").filename ≠ "" :=
  ⟨extractFilename_total_scan_filenames_nonempty.1 "map.pdf" "map.pdf".data (by decide),
   extractFilename_total_scan_filenames_nonempty.2.1 "Document: plan A" "plan A".data
     (by decide) (by decide),
   extractFilename_total_scan_filenames_nonempty.2.2.1 "no label here" (by decide) (by decide),
   extractFilename_total_scan_filenames_nonempty.2.2.2 "b.pdf" (Citation.mk "b.pdf" "" "")
     (by decide)⟩

deriving instance DecidableEq for Except

/-! ### Claim C2: the shape fallback keys on a substring, not on 4xx -/

/-- A successful upstream body whose output text is a plain sentence. -/
def shapeBBody : ResponseBody := { output_text := some "shape B output", output := none }

/-- An upstream that answers shape A with a 5xx error whose body
carries the unknown-parameter substring, and accepts anything else. -/
def serverErrorUpstream : SearchPayload → FetchResult := fun p =>
  if p = payloadA "setbacks" "vs_1" then FetchResult.fail 500 unknownParamText
  else FetchResult.ok shapeBBody

/-- C2, counterexample: the first attempt fails with status 500 — not a
4xx-class error — yet because its text contains the literal substring
the client still retries under shape B and returns the shape-B result
after two attempts, where the claim requires the error to be propagated
with no retry. -/
theorem toolsCallSearch_retries_on_server_error_with_substring :
    toolsCallSearch "setbacks" "vs_1" serverErrorUpstream =
      (Except.ok (ParseResult.raw "shape B output"),
       [payloadA "setbacks" "vs_1", payloadB "setbacks" "vs_1"]) := by
  decide

/-- C2, amended: the retry decision tests only whether the first error
text contains `Unknown parameter: 'attachments'`, regardless of status
class.  With the substring, exactly one retry under shape B is made: a
successful retry returns the shape-B result after exactly two attempts,
and a failed retry propagates an error carrying only the retry status
(the upstream message is dropped).  Without the substring the first
error is propagated carrying its status and message after one attempt.
No further retries happen in any case. -/
theorem toolsCallSearch_fallback_behavior (q sid : String)
    (up : SearchPayload → FetchResult) :
    (∀ b, up (payloadA q sid) = FetchResult.ok b →
      toolsCallSearch q sid up =
        (Except.ok (parseSearchResults (extractOutputText b)), [payloadA q sid])) ∧
    (∀ st txt b, up (payloadA q sid) = FetchResult.fail st txt →
      hasSubstr txt unknownParamText = true →
      up (payloadB q sid) = FetchResult.ok b →
      toolsCallSearch q sid up =
        (Except.ok (parseSearchResults (extractOutputText b)),
         [payloadA q sid, payloadB q sid])) ∧
    (∀ st txt, up (payloadA q sid) = FetchResult.fail st txt →
      hasSubstr txt unknownParamText = false →
      toolsCallSearch q sid up =
        (Except.error ("OpenAI API error: " ++ toString st ++ " - " ++ txt),
         [payloadA q sid])) ∧
    (∀ st txt st2 txt2, up (payloadA q sid) = FetchResult.fail st txt →
      hasSubstr txt unknownParamText = true →
      up (payloadB q sid) = FetchResult.fail st2 txt2 →
      toolsCallSearch q sid up =
        (Except.error ("Fallback request failed: " ++ toString st2),
         [payloadA q sid, payloadB q sid])) := by
  refine ⟨?_, ?_, ?_, ?_⟩
  · intro b hA
    unfold toolsCallSearch
    rw [hA]
  · intro st txt b hA hsub hB
    unfold toolsCallSearch
    rw [hA, hB]
    simp [hsub]
  · intro st txt hA hsub
    unfold toolsCallSearch
    rw [hA]
    simp [hsub]
  · intro st txt st2 txt2 hA hsub hB
    unfold toolsCallSearch
    rw [hA, hB]
    simp [hsub]

/-- An upstream that rejects shape A with a 400 unknown-parameter error
and accepts shape B, as in spec property P2. -/
def fallbackOkUpstream : SearchPayload → FetchResult := fun p =>
  if p = payloadA "parking" "vs_2" then FetchResult.fail 400 unknownParamText
  else FetchResult.ok shapeBBody

/-- C2, witness for the amended theorem: the retry case evaluated at a
concrete upstream. -/
theorem toolsCallSearch_fallback_behavior_witness :
    toolsCallSearch "parking" "vs_2" fallbackOkUpstream =
      (Except.ok (parseSearchResults (extractOutputText shapeBBody)),
       [payloadA "parking" "vs_2", payloadB "parking" "vs_2"]) :=
  (toolsCallSearch_fallback_behavior "parking" "vs_2" fallbackOkUpstream).2.1
    400 unknownParamText shapeBBody (by decide) (by decide) (by decide)

/-! ### Claim C6: provisioning is idempotent over persisted state -/

/-- C6: when the persisted file holds a handle (in particular a
structurally valid one with a non-empty id), `getOrCreateVectorStore`
returns exactly that handle and leaves the world untouched — zero
creation calls — and calling it again over the resulting state returns
the identical handle again. -/
theorem getOrCreateVectorStore_idempotent (co : CreateOutcome) (w : World)
    (vs : VectorStore) (hf : w.file = Persisted.stored vs) (_hid : vs.id ≠ "") :
    getOrCreateVectorStore co w = (Except.ok vs, w) ∧
    (getOrCreateVectorStore co w).2.createCalls = w.createCalls ∧
    getOrCreateVectorStore co (getOrCreateVectorStore co w).2 = (Except.ok vs, w) := by
  have h1 : getOrCreateVectorStore co w = (Except.ok vs, w) := by
    unfold getOrCreateVectorStore loadVectorStore
    rw [hf]
  exact ⟨h1, by rw [h1], by rw [h1]; exact h1⟩

/-- A world whose persisted file already holds a valid handle. -/
def storedWorld : World :=
  { file := Persisted.stored { id := "vs_abc123", name := "zoning-codes-store" },
    createCalls := 0 }

/-- C6, witness: over a concrete persisted handle, even with a creation
endpoint that would fail, both sequential calls return the stored handle
and the creation-call counter stays at zero. -/
theorem getOrCreateVectorStore_idempotent_witness :
    getOrCreateVectorStore (CreateOutcome.httpFail 500) storedWorld =
      (Except.ok { id := "vs_abc123", name := "zoning-codes-store" }, storedWorld) ∧
    (getOrCreateVectorStore (CreateOutcome.httpFail 500) storedWorld).2.createCalls =
      storedWorld.createCalls ∧
    getOrCreateVectorStore (CreateOutcome.httpFail 500)
        (getOrCreateVectorStore (CreateOutcome.httpFail 500) storedWorld).2 =
      (Except.ok { id := "vs_abc123", name := "zoning-codes-store" }, storedWorld) :=
  getOrCreateVectorStore_idempotent (CreateOutcome.httpFail 500) storedWorld
    { id := "vs_abc123", name := "zoning-codes-store" } rfl (by decide)

/-! ### Claim C7: a search request carries only the query -/

/-- A `tools/call` request for the search tool whose arguments carry a
valid query plus a `topK` and a `jurisdiction` member. -/
def searchReqWith (t : Option Int) (j : Option String) : McpRequest :=
  { jsonrpc := some "2.0", method := some "tools/call",
    paramsName := some "search_zoning",
    paramsArgs := { query := some (JsonPrim.str "setback requirements"), topK := t,
                    jurisdiction := j },
    id := some (RpcId.num 1) }

/-- An environment whose upstream accepts every payload. -/
def acceptAllEnv : Env :=
  { apiKeyPresent := true, createApi := CreateOutcome.httpFail 500,
    upstream := fun _ => FetchResult.ok { output_text := some "no match", output := none } }

/-- A world with a stored handle `vs_1`. -/
def vs1World : World :=
  { file := Persisted.stored { id := "vs_1", name := "zoning-codes-store" },
    createCalls := 0 }

/-- C7, counterexample: a request with `topK` 99 (outside the claimed
[1,25] bound) and jurisdiction `Austin` is processed identically to one
with neither member; exactly one outbound payload is sent and its
instruction does not embed the jurisdiction — the code reads only the
query, and the outbound payload has no topK field at all. -/
theorem searchRequest_ignores_topK_jurisdiction :
    handleMcp acceptAllEnv vs1World (searchReqWith (some 99) (some "Austin")) =
      handleMcp acceptAllEnv vs1World (searchReqWith none none) ∧
    (handleMcp acceptAllEnv vs1World (searchReqWith (some 99) (some "Austin"))).2.2 =
      [payloadA "setback requirements" "vs_1"] ∧
    hasSubstr (payloadA "setback requirements" "vs_1").input "Austin" = false := by
  refine ⟨?_, ?_, ?_⟩
  · decide
  · decide
  · decide

/-- C7, amended: a search request carries only the `query` argument: the
tool input schema declares exactly the property `query` (no topK, no
jurisdiction, no bounds or defaults), validation accepts any non-empty
string query regardless of the other members, and both outbound payload
shapes embed the query in the fixed instruction with no jurisdiction
restriction. -/
theorem searchRequest_query_only (q sid : String) (t1 t2 : Option Int)
    (j1 j2 : Option String) (hq : q ≠ "") :
    validateQuery { query := some (JsonPrim.str q), topK := t1, jurisdiction := j1 } = some q ∧
    validateQuery { query := some (JsonPrim.str q), topK := t1, jurisdiction := j1 } =
      validateQuery { query := some (JsonPrim.str q), topK := t2, jurisdiction := j2 } ∧
    (payloadA q sid).input = searchInstruction q ∧
    (payloadB q sid).input = searchInstruction q ∧
    inputSchemaPropertyNames = ["query"] ∧
    inputSchemaRequired = ["query"] := by
  refine ⟨?_, ?_, rfl, rfl, rfl, rfl⟩
  · unfold validateQuery
    simp [hq]
  · unfold validateQuery
    simp

/-- C7, witness for the amended theorem at concrete arguments. -/
theorem searchRequest_query_only_witness :
    validateQuery { query := some (JsonPrim.str "height limit"), topK := some 99,
                    jurisdiction := some "Austin" } = some "height limit" ∧
    validateQuery { query := some (JsonPrim.str "height limit"), topK := some 99,
                    jurisdiction := some "Austin" } =
      validateQuery { query := some (JsonPrim.str "height limit"), topK := none,
                      jurisdiction := none } ∧
    (payloadA "height limit" "vs_1").input = searchInstruction "height limit" ∧
    (payloadB "height limit" "vs_1").input = searchInstruction "height limit" ∧
    inputSchemaPropertyNames = ["query"] ∧
    inputSchemaRequired = ["query"] :=
  searchRequest_query_only "height limit" "vs_1" (some 99) none (some "Austin") none
    (by decide)

/-! ### Claim C8: missing method is rejected before method matching -/

/-- C8: with an acceptable protocol version, a request with a missing
(or empty) method yields the invalid-request error `-32600` with its
fixed message, while a present but unrecognized method yields the
method-not-found error `-32601` naming the method; the two codes are
distinct, both responses echo the request id (null when absent), leave
the world untouched and send no outbound payload. -/
theorem handleMcp_method_validation (env : Env) (w : World) (req : McpRequest) :
    (badJsonrpc req.jsonrpc = false → methodMissing req.method = true →
      handleMcp env w req =
        (RpcOut.error req.id (-32600) "Invalid request: missing method", w, [])) ∧
    (∀ m, badJsonrpc req.jsonrpc = false → req.method = some m →
      m ∉ (["", "initialize", "server/info", "ping", "tools/list", "tools/call"] :
        List String) →
      handleMcp env w req =
        (RpcOut.error req.id (-32601) ("Unknown method: " ++ m), w, [])) ∧
    (-32600 : Int) ≠ -32601 := by
  refine ⟨?_, ?_, by decide⟩
  · intro hv hm
    unfold handleMcp
    simp [hv, hm]
  · intro m hv hm hnot
    simp only [List.mem_cons, List.mem_singleton, not_or] at hnot
    obtain ⟨h0, h1, h2, h3, h4, h5⟩ := hnot
    unfold handleMcp
    rw [hm]
    simp [hv, methodMissing, methodOrEmpty, h0, h1, h2, h3, h4, h5]

/-- An environment for dispatcher probes; its endpoints would fail if
they were ever reached. -/
def probeEnv : Env :=
  { apiKeyPresent := true, createApi := CreateOutcome.httpFail 500,
    upstream := fun _ => FetchResult.fail 400 "unreached" }

/-- Arguments with no query at all. -/
def emptyArgs : Args := { query := none, topK := none, jurisdiction := none }

/-- A world with no persisted handle. -/
def probeWorld : World := { file := Persisted.absent, createCalls := 0 }

/-- A request with no method member. -/
def noMethodReq : McpRequest :=
  { jsonrpc := some "2.0", method := none, paramsName := none,
    paramsArgs := emptyArgs, id := some (RpcId.num 3) }

/-- A request with an unrecognized method. -/
def fooBarReq : McpRequest :=
  { jsonrpc := some "2.0", method := some "foo/bar", paramsName := none,
    paramsArgs := emptyArgs, id := some (RpcId.num 7) }

/-- C8, witness: the two theorem cases evaluated at concrete requests,
echoing ids 3 and 7. -/
theorem handleMcp_method_validation_witness :
    handleMcp probeEnv probeWorld noMethodReq =
      (RpcOut.error (some (RpcId.num 3)) (-32600) "Invalid request: missing method",
       probeWorld, []) ∧
    handleMcp probeEnv probeWorld fooBarReq =
      (RpcOut.error (some (RpcId.num 7)) (-32601) ("Unknown method: " ++ "foo/bar"),
       probeWorld, []) :=
  ⟨(handleMcp_method_validation probeEnv probeWorld noMethodReq).1 (by decide) (by decide),
   (handleMcp_method_validation probeEnv probeWorld fooBarReq).2.1 "foo/bar"
     (by decide) rfl (by decide)⟩

/-! ### Claim C9: a missing query is rejected before any outbound call -/

/-- C9: a `tools/call` for the search tool whose arguments do not carry
a non-empty string query (with the API key configured) yields the
invalid-params error `-32602`, leaves the world untouched — so no
store-handle provisioning happens — and sends no outbound search
payload. -/
theorem handleMcp_missing_query_no_outbound (env : Env) (w : World) (req : McpRequest)
    (hv : badJsonrpc req.jsonrpc = false) (hm : req.method = some "tools/call")
    (hkey : env.apiKeyPresent = true) (hname : req.paramsName = some searchToolName)
    (hq : validateQuery req.paramsArgs = none) :
    handleMcp env w req =
      (RpcOut.error req.id (-32602) "Missing required argument: query", w, []) := by
  have h1 : methodMissing (some "tools/call") = false := by decide
  have h2 : (some "tools/call" : Option String) ≠ some "initialize" := by decide
  have h3 : (some "tools/call" : Option String) ≠ some "server/info" := by decide
  have h4 : (some "tools/call" : Option String) ≠ some "ping" := by decide
  have h5 : (some "tools/call" : Option String) ≠ some "tools/list" := by decide
  unfold handleMcp
  rw [hm]
  simp [hv, h1, h2, h3, h4, h5, hkey, hname, hq]

/-- A `tools/call` request for the search tool with no query argument. -/
def noQueryReq : McpRequest :=
  { jsonrpc := none, method := some "tools/call", paramsName := some "search_zoning",
    paramsArgs := emptyArgs, id := none }

/-- C9, witness: the theorem evaluated at a concrete query-less request;
the world is unchanged and the sent-payload list is empty. -/
theorem handleMcp_missing_query_no_outbound_witness :
    handleMcp probeEnv probeWorld noQueryReq =
      (RpcOut.error none (-32602) "Missing required argument: query", probeWorld, []) :=
  handleMcp_missing_query_no_outbound probeEnv probeWorld noQueryReq
    (by decide) rfl rfl rfl (by decide)

end ZoningMcp
